import Mathlib

/-!
Shallow embedding of `news.py` (Heather-Herbert/News): a single-run RSS →
scrape → summarize → text-to-speech → Telegram pipeline.

Python strings are modelled as `List Char` (`Str`): Python `len`, slicing and
concatenation correspond to `List.length`, `take`/`drop` and `++` over code
points.  Network interactions are modelled by explicit oracle inputs: each
outward HTTP call site takes the outcome the remote service would produce, and
each function is the pure transformation the Python code performs on it.
Exceptions that a function lets escape are modelled with `Except`; functions
that convert every failure into a sentinel return `Option`/`Bool` as the code
returns `None`/`False`.
-/

namespace News

/-- Python strings as lists of code points. -/
abbrev Str := List Char

/-- Embed a Lean string literal as a Python-style string. -/
def str (s : String) : Str := s.toList

/-- Python `str.upper()` (ASCII suffices for the method names compared here). -/
def pyUpper (s : Str) : Str := s.map Char.toUpper

/-- Python truthiness check `not text.strip()`: true iff every character is
whitespace (in particular for the empty string). -/
def isBlank (s : Str) : Bool := s.all (fun c => c.isWhitespace)

/-! ### HTTP Request Helper (`make_request`, news.py lines 83-101) -/

/-- Outcome of one attempted HTTP call, seen from `make_request`'s `try` block:
either `requests` raised a `RequestException` (network error, timeout, ...) or
a response with the given final status and body came back. -/
inductive HttpResult (β : Type) where
  | exception : HttpResult β
  | response (status : Nat) (body : β) : HttpResult β
deriving DecidableEq, Repr

/-- `requests.Response.raise_for_status()` raises exactly for client and server
error statuses, i.e. `400 <= status < 600`. -/
def raise_for_status_raises (status : Nat) : Bool :=
  decide (400 ≤ status ∧ status < 600)

/-- `make_request(url, method, ...)` (news.py 83-101).  `method.upper()` must be
`"GET"` or `"POST"`, otherwise the helper logs and returns `None` without any
network call; a `RequestException` or a `raise_for_status` failure also yields
`None`; otherwise the response is returned.  The oracle `outcome` is the result
the network would deliver, consulted only on the supported-method branch. -/
def make_request {β : Type} (method : Str) (outcome : HttpResult β) :
    Option (Nat × β) :=
  if pyUpper method = str "GET" ∨ pyUpper method = str "POST" then
    match outcome with
    | .exception => none
    | .response status body =>
        if raise_for_status_raises status then none else some (status, body)
  else
    none

/-! ### Feed Fetcher (`fetch_rss_entries`, news.py lines 104-134) -/

/-- One parsed feed entry as `fetch_rss_entries` consumes it: the
`published_parsed` / `updated_parsed` fields are modelled as optional UTC epoch
seconds (the code converts the `struct_time` to an aware UTC datetime). -/
structure FeedEntry where
  title : Str
  link : Option Str
  published_parsed : Option Int
  updated_parsed : Option Int
deriving DecidableEq, Repr

/-- `entry.get("published_parsed") or entry.get("updated_parsed")`: a present
`struct_time` is always truthy, so this is `Option.orElse`. -/
def entryTimestamp (e : FeedEntry) : Option Int :=
  e.published_parsed.orElse (fun _ => e.updated_parsed)

/-- Number of seconds in `timedelta(days=1)`. -/
def secondsPerDay : Int := 86400

/-- The filtering loop of `fetch_rss_entries` (news.py 116-134): an entry is
kept iff it has a parsable date `t` and `t >= now - timedelta(days=1)`; entries
without a date are logged and dropped; feed order is preserved.  `now` is the
current UTC instant in epoch seconds. -/
def fetch_rss_entries (now : Int) (entries : List FeedEntry) : List FeedEntry :=
  entries.filter (fun e =>
    match entryTimestamp e with
    | some t => decide (t ≥ now - secondsPerDay)
    | none => false)

/-! ### Article Extractor (`extract_text_from_url`, news.py lines 137-166) -/

/-- Abstraction of one fetched article page after `BeautifulSoup` parsing: the
visible text (`get_text(separator="\n", strip=True)`) of each element the code
may consult, each `none` when the element is absent, and a flag recording
whether evaluating the `try` block raises. -/
structure Page where
  entry_body : Option Str
  mainText : Option Str
  articleText : Option Str
  bodyText : Option Str
  parseError : Bool
deriving DecidableEq, Repr

/-- `extract_text_from_url` (news.py 137-166).  Input `fetched` is the result
of `make_request(article_url)` followed by parsing: `none` when the fetch
returned `None`.  With `<section id="entry-body">` present its text is returned
unconditionally; otherwise `soup.find("main") or soup.find("article") or
soup.find("body")` is consulted and its text returned only when longer than
200 characters; any exception in the `try` block yields `None`. -/
def extract_text_from_url (fetched : Option Page) : Option Str :=
  match fetched with
  | none => none
  | some page =>
    if page.parseError then none
    else
      match page.entry_body with
      | some text => some text
      | none =>
        match (page.mainText.orElse fun _ =>
                (page.articleText.orElse fun _ => page.bodyText)) with
        | some text => if text.length > 200 then some text else none
        | none => none

/-! ### Narrative Generator (`get_llm_narrative`, news.py lines 169-217) -/

/-- The DeepSeek response body as `get_llm_narrative` inspects it: either the
body fails to decode as JSON (`json.JSONDecodeError`), or it decodes to an
object whose `"choices"` member is `none` when absent (or falsy) and otherwise
the list of choices, each carrying `choices[k]["message"]["content"]` when that
path exists (`none` models a shape for which the lookup raises, caught by the
generic `except`). -/
inductive DSBody where
  | invalid (raw : Str) : DSBody
  | valid (choices : Option (List (Option Str))) : DSBody
deriving DecidableEq, Repr

/-- The `"content"` of the user message in the request payload (news.py 182):
`text_corpus or "No articles were found or text could not be extracted."` —
the placeholder is substituted exactly when the corpus is the empty (falsy)
string. -/
def llm_user_content (text_corpus : Str) : Str :=
  if text_corpus = [] then
    str "No articles were found or text could not be extracted."
  else text_corpus

/-- `get_llm_narrative(text_corpus)` (news.py 169-217).  `dsKeyPresent` models
`bool(DS_API_KEY)`; `transport` is the outcome of the POST via `make_request`
(`none` = helper returned `None`).  A missing or empty `choices` list, a JSON
decode failure, or any exception while extracting the first choice's content
is logged and yields `None`. -/
def get_llm_narrative (dsKeyPresent : Bool) (text_corpus : Str)
    (transport : Option DSBody) : Option Str :=
  if !dsKeyPresent then none
  else
    match transport with
    | none => none
    | some (.invalid _) => none
    | some (.valid none) => none
    | some (.valid (some [])) => none
    | some (.valid (some (content :: _))) => content

/-! ### Speech Synthesizer (`text_to_speech_elevenlabs`, news.py 220-256) -/

/-- `text_to_speech_elevenlabs(text)` (news.py 220-256).  `keysPresent` models
both ElevenLabs credentials being configured; `transport` is the outcome of
the POST via `make_request` (`none` = helper returned `None`), carrying the
final status and raw body bytes.  Audio is returned only when the status is
200 and the body is non-empty. -/
def text_to_speech_elevenlabs (keysPresent : Bool) (text : Str)
    (transport : Option (Nat × Str)) : Option Str :=
  if !keysPresent then none
  else if isBlank text then none
  else
    match transport with
    | none => none
    | some (status, content) =>
        if status = 200 ∧ content ≠ [] then some content else none

/-! ### Delivery Layer (`send_telegram_message` / `send_telegram_audio`,
news.py lines 259-298) -/

/-- A Telegram response body as the send functions inspect it: `invalid` when
`response.json()` raises (body not valid JSON), else the truthiness of
`.get("ok")` (absent key counts as falsy). -/
inductive TgBody where
  | invalid : TgBody
  | valid (ok : Bool) : TgBody
deriving DecidableEq, Repr

/-- `send_telegram_message(text_message)` (news.py 259-273).  `httpResult` is
the result of `make_request(..., "POST")`: `none` = helper returned `None`.
The `response.json()` call is not wrapped in any `try`, so a non-JSON body
raises out of the function: that outcome is `Except.error ()`.  All other
outcomes return `Bool` as the code returns `True`/`False`. -/
def send_telegram_message (configOk : Bool) (httpResult : Option TgBody) :
    Except Unit Bool :=
  if !configOk then .ok false
  else
    match httpResult with
    | none => .ok false
    | some .invalid => .error ()
    | some (.valid ok) => if ok then .ok true else .ok false

/-- `caption[:1024]` — the caption field actually posted by
`send_telegram_audio` (news.py 283). -/
def send_telegram_audio_posted_caption (caption : Str) : Str :=
  caption.take 1024

/-- `send_telegram_audio(audio_bytes, caption)` (news.py 276-298).  The direct
`requests.post` and `raise_for_status` sit inside a `try` catching
`RequestException` (which also covers `requests`' JSON decode error), so every
failure returns `False`; success requires a non-error status and a truthy
`"ok"` field. -/
def send_telegram_audio (configOk : Bool) (outcome : HttpResult TgBody) :
    Bool :=
  if !configOk then false
  else
    match outcome with
    | .exception => false
    | .response status body =>
        if raise_for_status_raises status then false
        else
          match body with
          | .invalid => false
          | .valid ok => ok

/-! ### Orchestrator (`main`, news.py lines 302-375) -/

/-- Observable delivery actions of one run: each Telegram text send (news.py
314, 330, 341, 369, 372), each audio send attempt with the caption field
actually posted and its outcome (news.py 353), and each `time.sleep(1)`
(news.py 370). -/
inductive Event where
  | textSend (msg : Str) : Event
  | audioAttempt (postedCaption : Str) (audio : Str) (success : Bool) : Event
  | slept (seconds : Nat) : Event
deriving DecidableEq, Repr

/-- Python `range(0, stop, step)` for `step > 0`: the ascending multiples of
`step` below `stop` — `ceil(stop/step)` of them (news.py 367 iterates it with
`stop = len(narrative)`, `step = max_len`). -/
def pyRange0 (stop step : Nat) : List Nat :=
  (List.range ((stop + step - 1) / step)).map (· * step)

/-- The chunk header `f"[Part {i // max_len + 1}]\n"` (news.py 369). -/
def partPrefix (n : Nat) : Str :=
  str "[Part " ++ (toString n).toList ++ str "]" ++ ['\n']

/-- The Telegram message length limit buffer `max_len = 4000` (news.py 365). -/
def max_len : Nat := 4000

/-- The text messages produced by the text-fallback branch (news.py 365-372):
one verbatim message when the narrative fits in `max_len`, else one
`"[Part N]\n"`-prefixed message per `max_len`-sized slice. -/
def textFallbackMessages (narrative : Str) : List Str :=
  if narrative.length > max_len then
    (pyRange0 narrative.length max_len).map (fun i =>
      partPrefix (i / max_len + 1) ++ (narrative.drop i).take max_len)
  else
    [narrative]

/-- The same branch as a sequence of events, recording the `time.sleep(1)`
issued after each chunked send (news.py 370). -/
def textFallbackEvents (narrative : Str) : List Event :=
  if narrative.length > max_len then
    ((pyRange0 narrative.length max_len).map (fun i =>
      [Event.textSend (partPrefix (i / max_len + 1) ++
        (narrative.drop i).take max_len), Event.slept 1])).flatten
  else
    [Event.textSend narrative]

/-- `audio_caption_summary` (news.py 346-348): the narrative's first line
(`narrative.split('\n')[0]`), truncated to its first 200 characters with
`"..."` appended when longer than 200. -/
def audio_caption_summary (narrative : Str) : Str :=
  let firstLine := narrative.takeWhile (fun c => c ≠ '\n')
  if firstLine.length > 200 then firstLine.take 200 ++ str "..." else firstLine

/-- The caption argument passed to `send_telegram_audio` (news.py 353):
`f"Your 24hr News Summary:\n{audio_caption_summary}"`. -/
def audioCaptionArg (narrative : Str) : Str :=
  str "Your 24hr News Summary:" ++ ['\n'] ++ audio_caption_summary narrative

/-- All oracle inputs for one run, with the chosen `User-Agent` string already
applied to the call sites that send one (see `Services` below): the parsed
feed entries, the fetched page per article link, the DeepSeek transport
outcome per corpus, the ElevenLabs transport outcome per narrative, and the
audio-upload outcome per posted caption and audio bytes.  `configOk` models
the `all([...])` credential check (news.py 304); `now` is the current UTC
instant in epoch seconds. -/
structure Env where
  configOk : Bool
  now : Int
  entries : List FeedEntry
  pageOf : Str → Option Page
  llmTransport : Str → Option DSBody
  ttsTransport : Str → Option (Nat × Str)
  audioOutcome : Str → Str → HttpResult TgBody

/-- The extraction loop (news.py 317-326): entries without a link are skipped;
for the rest `extract_text_from_url(link)` is called and a truthy (non-empty)
result is wrapped as `f"--- Article: {title} ---\n{text}\n\n"` and collected
in feed order. -/
def extractedBlocks (env : Env) (recents : List FeedEntry) : List Str :=
  recents.foldl (fun acc e =>
    match e.link with
    | none => acc
    | some link =>
      match extract_text_from_url (env.pageOf link) with
      | none => acc
      | some text =>
          if text = [] then acc
          else acc ++ [str "--- Article: " ++ e.title ++ str " ---" ++
            ['\n'] ++ text ++ ['\n', '\n']]) []

/-- The synthesize-and-deliver stage (news.py 345-373): attempt speech
synthesis; on audio bytes, attempt the audio send with the derived caption and
set `audio_sent` on success; whenever `audio_sent` is false afterwards, send
the full narrative as text, chunked when longer than `max_len`. -/
def synthesizeAndDeliver (env : Env) (narrative : Str) : List Event :=
  match text_to_speech_elevenlabs true narrative
      (env.ttsTransport narrative) with
  | some audio =>
      if send_telegram_audio true (env.audioOutcome
          (send_telegram_audio_posted_caption (audioCaptionArg narrative))
          audio) then
        [Event.audioAttempt
          (send_telegram_audio_posted_caption (audioCaptionArg narrative))
          audio true]
      else
        Event.audioAttempt
          (send_telegram_audio_posted_caption (audioCaptionArg narrative))
          audio false :: textFallbackEvents narrative
  | none => textFallbackEvents narrative

/-- `main(rss_url)` (news.py 302-375) as the sequence of delivery events of
one run.  Missing credentials stop the run before any network call (the
`stderr` print is not a delivery event); an empty filtered feed, an empty
corpus, or a failed narrative each send one fixed notification text and stop;
otherwise the synthesize-and-deliver stage runs.  `if not narrative` is falsy
for both `None` and the empty string. -/
def main (env : Env) : List Event :=
  if !env.configOk then []
  else
    let recents := fetch_rss_entries env.now env.entries
    if recents = [] then
      [Event.textSend
        (str "No new articles found in the RSS feed in the last 24 hours.")]
    else
      let blocks := extractedBlocks env recents
      if blocks = [] then
        [Event.textSend
          (str "Found recent articles, but could not extract text content.")]
      else
        let corpus := blocks.flatten
        match get_llm_narrative true corpus (env.llmTransport corpus) with
        | none =>
            [Event.textSend (str
              "Failed to generate an AI news summary. No update could be produced.")]
        | some [] =>
            [Event.textSend (str
              "Failed to generate an AI news summary. No update could be produced.")]
        | some narrative => synthesizeAndDeliver env narrative

/-! ### Randomized client identity (`get_random_user_agent`, news.py 78-80) -/

/-- The fixed `USER_AGENTS` pool (news.py 39-44), one entry per browser
identity string; the exact texts are irrelevant to every claim, only that the
pool is a fixed four-element list. -/
def USER_AGENTS : List Str :=
  [str "Mozilla/5.0 (Windows NT 10.0; Win64; x64) Chrome/91",
   str "Mozilla/5.0 (X11; Linux x86_64) Chrome/92",
   str "Mozilla/5.0 (Windows NT 10.0; Win64; x64; rv:90.0) Firefox/90",
   str "Mozilla/5.0 (Macintosh; Intel Mac OS X 10_15_7) Safari/605"]

/-- `get_random_user_agent()`: `random.choice(USER_AGENTS)`, modelled as a
pure function of the random draw. -/
def get_random_user_agent (choice : Fin 4) : Str :=
  USER_AGENTS.get (Fin.cast (by decide) choice)

/-- The external services, before a `User-Agent` is chosen: every call site
that goes through `make_request` (or `feedparser.parse(url, agent=...)`)
receives the chosen identity string as its first argument; the direct audio
upload (news.py 288) sends no custom identity. -/
structure Services where
  configOk : Bool
  now : Int
  feed : Str → List FeedEntry
  page : Str → Str → Option Page
  llm : Str → Str → Option DSBody
  tts : Str → Str → Option (Nat × Str)
  audioOutcome : Str → Str → HttpResult TgBody

/-- One run of the pipeline under a concrete user-agent draw: the chosen
identity string is supplied to every identity-carrying call site. -/
def mainRun (choice : Fin 4) (svc : Services) : List Event :=
  main { configOk := svc.configOk, now := svc.now,
         entries := svc.feed (get_random_user_agent choice),
         pageOf := svc.page (get_random_user_agent choice),
         llmTransport := svc.llm (get_random_user_agent choice),
         ttsTransport := svc.tts (get_random_user_agent choice),
         audioOutcome := svc.audioOutcome }

/-- The text messages carried by a list of events, in order. -/
def textSends (events : List Event) : List Str :=
  events.filterMap (fun e =>
    match e with
    | .textSend msg => some msg
    | _ => none)

/-- An event list contains a successful audio delivery. -/
def audioSucceeded (events : List Event) : Prop :=
  ∃ caption audio, Event.audioAttempt caption audio true ∈ events

instance (events : List Event) : Decidable (audioSucceeded events) := by
  unfold audioSucceeded
  induction events with
  | nil => exact .isFalse (by simp)
  | cons e rest ih =>
      rcases ih with h | h
      · cases e with
        | audioAttempt c a s =>
            cases s with
            | true => exact .isTrue ⟨c, a, List.mem_cons_self _ _⟩
            | false =>
                refine .isFalse ?_
                rintro ⟨c', a', hmem⟩
                rcases List.mem_cons.mp hmem with heq | hmem'
                · exact absurd heq (by simp)
                · exact h ⟨c', a', hmem'⟩
        | textSend m =>
            refine .isFalse ?_
            rintro ⟨c', a', hmem⟩
            rcases List.mem_cons.mp hmem with heq | hmem'
            · exact absurd heq (by simp)
            · exact h ⟨c', a', hmem'⟩
        | slept n =>
            refine .isFalse ?_
            rintro ⟨c', a', hmem⟩
            rcases List.mem_cons.mp hmem with heq | hmem'
            · exact absurd heq (by simp)
            · exact h ⟨c', a', hmem'⟩
      · exact .isTrue (by
          rcases h with ⟨c, a, hmem⟩
          exact ⟨c, a, List.mem_cons_of_mem _ hmem⟩)

/-! ## Helper lemmas -/

/-- `textSends` of a send/sleep pair sequence recovers the message list. -/
theorem textSends_pairs (l : List Str) :
    textSends ((l.map (fun m => [Event.textSend m, Event.slept 1])).flatten) =
      l := by
  induction l with
  | nil => rfl
  | cons m rest ih =>
      simp only [List.map_cons, List.flatten_cons, textSends,
        List.filterMap_append, List.filterMap_cons, List.filterMap_nil]
      simpa [textSends] using ih

/-- The text messages of the text-fallback events are exactly the fallback
messages. -/
theorem textSends_textFallbackEvents (narrative : Str) :
    textSends (textFallbackEvents narrative) =
      textFallbackMessages narrative := by
  unfold textFallbackEvents textFallbackMessages
  split
  · have h := textSends_pairs (((pyRange0 narrative.length max_len).map
      (fun i => partPrefix (i / max_len + 1) ++ (narrative.drop i).take max_len)))
    rw [List.map_map] at h
    exact h
  · rfl

/-- The text-fallback branch never produces an audio event. -/
theorem audioAttempt_not_mem_textFallbackEvents (narrative c a : Str)
    (s : Bool) : Event.audioAttempt c a s ∉ textFallbackEvents narrative := by
  unfold textFallbackEvents
  split
  · intro hmem
    rw [List.mem_flatten] at hmem
    obtain ⟨chunk, hchunk, hmem'⟩ := hmem
    rw [List.mem_map] at hchunk
    obtain ⟨i, -, rfl⟩ := hchunk
    simp at hmem'
  · intro hmem
    simp at hmem

/-- The text-fallback branch always issues at least one message. -/
theorem textFallbackMessages_ne_nil (narrative : Str) :
    textFallbackMessages narrative ≠ [] := by
  unfold textFallbackMessages
  split
  · rename_i hgt
    intro hnil
    have hlen := congrArg List.length hnil
    simp only [pyRange0, List.length_map, List.length_range,
      List.length_nil] at hlen
    have hone : 1 ≤ (narrative.length + max_len - 1) / max_len :=
      (Nat.one_le_div_iff (by decide)).mpr (by simp only [max_len] at hgt ⊢; omega)
    omega
  · simp

/-- The ceiling division used by `pyRange0` covers the whole input:
`stop ≤ ceil(stop/step) * step` for positive `step`. -/
theorem le_ceil_mul (stop step : Nat) (hstep : 0 < step) :
    stop ≤ ((stop + step - 1) / step) * step := by
  have hdm := Nat.div_add_mod (stop + step - 1) step
  have hcomm : ((stop + step - 1) / step) * step =
      step * ((stop + step - 1) / step) := Nat.mul_comm _ _
  have hlt := Nat.mod_lt (stop + step - 1) hstep
  omega

/-- Splitting a list into `q` consecutive `m`-sized slices and flattening
recovers the list, provided `q * m` covers its length. -/
theorem flatten_take_chunks {α : Type} (m : Nat) :
    ∀ (q : Nat) (l : List α), l.length ≤ q * m →
      ((List.range q).map (fun k => (l.drop (k * m)).take m)).flatten = l := by
  intro q
  induction q with
  | zero =>
      intro l hl
      simp only [Nat.zero_mul, Nat.le_zero, List.length_eq_zero] at hl
      simp [hl]
  | succ q ih =>
      intro l hl
      rw [List.range_succ_eq_map, List.map_cons, List.flatten_cons,
        List.map_map]
      have hcongr : ∀ k, ((fun k => (l.drop (k * m)).take m) ∘ Nat.succ) k =
          (fun k => ((l.drop m).drop (k * m)).take m) k := by
        intro k
        simp only [Function.comp_apply]
        rw [List.drop_drop]
        have heq : Nat.succ k * m = m + k * m := by
          rw [Nat.succ_mul, Nat.add_comm]
        rw [heq]
      rw [List.map_congr_left (fun k _ => hcongr k), ih (l.drop m) ?_]
      · simp
      · rw [List.length_drop]
        have : (q + 1) * m = q * m + m := by ring
        omega

/-- Equation: failed synthesis goes straight to the text fallback. -/
theorem synthesizeAndDeliver_eq_none (env : Env) (narrative : Str)
    (htts : text_to_speech_elevenlabs true narrative
      (env.ttsTransport narrative) = none) :
    synthesizeAndDeliver env narrative = textFallbackEvents narrative := by
  unfold synthesizeAndDeliver
  rw [htts]

/-- Equation: synthesized audio with an acknowledged send is the single
delivery. -/
theorem synthesizeAndDeliver_eq_success (env : Env) (narrative audio : Str)
    (htts : text_to_speech_elevenlabs true narrative
      (env.ttsTransport narrative) = some audio)
    (hsend : send_telegram_audio true (env.audioOutcome
      (send_telegram_audio_posted_caption (audioCaptionArg narrative)) audio)
      = true) :
    synthesizeAndDeliver env narrative =
      [Event.audioAttempt
        (send_telegram_audio_posted_caption (audioCaptionArg narrative))
        audio true] := by
  unfold synthesizeAndDeliver
  rw [htts]
  show (if send_telegram_audio true (env.audioOutcome
      (send_telegram_audio_posted_caption (audioCaptionArg narrative)) audio)
      = true then
    [Event.audioAttempt
      (send_telegram_audio_posted_caption (audioCaptionArg narrative))
      audio true]
  else
    Event.audioAttempt
      (send_telegram_audio_posted_caption (audioCaptionArg narrative))
      audio false :: textFallbackEvents narrative) = _
  rw [if_pos hsend]

/-- Equation: synthesized audio with a failed send falls back to text after
the attempt. -/
theorem synthesizeAndDeliver_eq_failure (env : Env) (narrative audio : Str)
    (htts : text_to_speech_elevenlabs true narrative
      (env.ttsTransport narrative) = some audio)
    (hsend : send_telegram_audio true (env.audioOutcome
      (send_telegram_audio_posted_caption (audioCaptionArg narrative)) audio)
      = false) :
    synthesizeAndDeliver env narrative =
      Event.audioAttempt
        (send_telegram_audio_posted_caption (audioCaptionArg narrative))
        audio false :: textFallbackEvents narrative := by
  unfold synthesizeAndDeliver
  rw [htts]
  show (if send_telegram_audio true (env.audioOutcome
      (send_telegram_audio_posted_caption (audioCaptionArg narrative)) audio)
      = true then
    [Event.audioAttempt
      (send_telegram_audio_posted_caption (audioCaptionArg narrative))
      audio true]
  else
    Event.audioAttempt
      (send_telegram_audio_posted_caption (audioCaptionArg narrative))
      audio false :: textFallbackEvents narrative) = _
  rw [if_neg (by rw [hsend]; exact Bool.false_ne_true)]

/-! ## Claims -/

/-- **C1, counterexample.**  The claim states that an entry with a
determinable publication instant is retained iff the instant lies in
`[now - 24h, now]`, with `now` as the upper bound.  `fetch_rss_entries`
(news.py 125) checks only `entry_date >= twenty_four_hours_ago`: an entry
whose timestamp lies one hour in the future is retained, so the stated upper
bound does not hold. -/
theorem C1_counterexample :
    ¬ (∀ (now : Int) (entries : List FeedEntry) (e : FeedEntry) (t : Int),
        entryTimestamp e = some t → e ∈ entries →
        (e ∈ fetch_rss_entries now entries ↔
          (now - secondsPerDay ≤ t ∧ t ≤ now))) := by
  intro hclaim
  have h := hclaim 0 [⟨str "future", none, some 3600, none⟩]
    ⟨str "future", none, some 3600, none⟩ 3600 rfl (List.mem_singleton.mpr rfl)
  have hmem : (⟨str "future", none, some 3600, none⟩ : FeedEntry) ∈
      fetch_rss_entries 0 [⟨str "future", none, some 3600, none⟩] := by decide
  have := (h.mp hmem).2
  omega

/-- **C1, amended.**  For every feed entry with a determinable publication
instant `t`, the Feed Fetcher retains the entry iff `t` is at or after
`now - 24h` (inclusive lower bound); there is no upper bound, so future-dated
entries are also retained.  Feed order is preserved (the retained list is a
sublist filter of the input). -/
theorem C1_window_filter (now : Int) (entries : List FeedEntry)
    (e : FeedEntry) (t : Int) (ht : entryTimestamp e = some t) :
    e ∈ fetch_rss_entries now entries ↔
      (e ∈ entries ∧ now - secondsPerDay ≤ t) := by
  unfold fetch_rss_entries
  rw [List.mem_filter, ht]
  simp [ge_iff_le]

/-- **C1, witness.**  A concrete entry timestamped exactly at the 24-hour
boundary is retained. -/
theorem C1_window_filter_witness :
    (⟨str "boundary", none, some 913600, none⟩ : FeedEntry) ∈
      fetch_rss_entries 1000000 [⟨str "boundary", none, some 913600, none⟩] :=
  (C1_window_filter 1000000 [⟨str "boundary", none, some 913600, none⟩]
      ⟨str "boundary", none, some 913600, none⟩ 913600 (by decide)).mpr
    ⟨List.mem_singleton.mpr rfl, by decide⟩

/-- **C5, counterexample.**  The claim states the helper returns the response
only on a 2xx status.  `raise_for_status` raises only for statuses in
400–599, so a 304 response is returned by `make_request` (news.py 97-98). -/
theorem C5_counterexample :
    ¬ (∀ (method : Str) (outcome : HttpResult Unit) (status : Nat) (body : Unit),
        make_request method outcome = some (status, body) →
        (200 ≤ status ∧ status ≤ 299)) := by
  intro hclaim
  have h := hclaim (str "GET") (.response 304 ()) 304 () (by decide)
  omega

/-- **C5, amended.**  `make_request` returns the sentinel immediately (no
call) for any method whose upper-casing is neither `"GET"` nor `"POST"`,
returns the sentinel on any network exception and on any 4xx/5xx status, and
returns the response exactly when the method is supported, no exception
occurred, and the status is outside 400–599 — so 1xx/2xx/3xx responses are all
returned, not only 2xx. -/
theorem C5_make_request {β : Type} (method : Str) (outcome : HttpResult β) :
    ((pyUpper method ≠ str "GET" ∧ pyUpper method ≠ str "POST") →
      make_request method outcome = none) ∧
    (outcome = .exception → make_request method outcome = none) ∧
    (∀ status body, outcome = .response status body → 400 ≤ status →
      status < 600 → make_request method outcome = none) ∧
    (∀ status body, outcome = .response status body →
      (pyUpper method = str "GET" ∨ pyUpper method = str "POST") →
      ¬ (400 ≤ status ∧ status < 600) →
      make_request method outcome = some (status, body)) := by
  refine ⟨?_, ?_, ?_, ?_⟩
  · intro ⟨h1, h2⟩
    unfold make_request
    rw [if_neg]
    push_neg
    exact ⟨h1, h2⟩
  · intro h
    subst h
    unfold make_request
    split <;> rfl
  · intro status body h h4 h6
    subst h
    unfold make_request
    split
    · simp only [raise_for_status_raises]
      rw [if_pos (by simp; omega)]
    · rfl
  · intro status body h hm hs
    subst h
    unfold make_request
    rw [if_pos hm]
    simp only [raise_for_status_raises]
    rw [if_neg (by simpa using hs)]

/-- **C5, witness.**  A lower-case `"get"` with a 200 response is returned;
the helper's method check upper-cases first. -/
theorem C5_make_request_witness :
    make_request (str "get") (HttpResult.response 200 ()) = some (200, ()) :=
  (C5_make_request (str "get") (.response 200 ())).2.2.2 200 () rfl
    (.inl (by decide)) (by decide)

/-- **C6.**  With an empty corpus the user content of the request is the
non-empty placeholder sentence (and the user content is non-empty for every
corpus); a response whose JSON lacks a `choices` member, has an empty
`choices` list, or fails to decode as JSON yields the `None` sentinel — the
model is a total function, reflecting that every such failure is caught
inside `get_llm_narrative` (news.py 202-217) rather than raised. -/
theorem C6_llm_robustness :
    (llm_user_content [] =
      str "No articles were found or text could not be extracted.") ∧
    (∀ corpus, llm_user_content corpus ≠ []) ∧
    (∀ corpus raw,
      get_llm_narrative true corpus (some (.invalid raw)) = none) ∧
    (∀ corpus, get_llm_narrative true corpus (some (.valid none)) = none) ∧
    (∀ corpus,
      get_llm_narrative true corpus (some (.valid (some []))) = none) := by
  refine ⟨rfl, ?_, fun _ _ => rfl, fun _ => rfl, fun _ => rfl⟩
  intro corpus
  unfold llm_user_content
  split
  · decide
  · assumption

/-- **C6, witness.**  Concrete instance: the empty corpus is replaced by a
non-empty placeholder, and an empty `choices` list yields no narrative. -/
theorem C6_llm_robustness_witness :
    llm_user_content [] ≠ [] ∧
    get_llm_narrative true [] (some (.valid (some []))) = none :=
  ⟨C6_llm_robustness.2.1 [], C6_llm_robustness.2.2.2.2 []⟩

/-- **C8, code evaluated at the failing input.**  `send_telegram_message`
(news.py 259-273) calls `response.json()` outside any `try`: on a successful
HTTP response whose body is not valid JSON the function raises to its caller
(`Except.error`) instead of reporting `False`; all other outcomes are reported
as the claim states. -/
theorem C8_invalid_json_raises :
    send_telegram_message true (some TgBody.invalid) = Except.error () ∧
    send_telegram_message true (some (TgBody.valid true)) = Except.ok true ∧
    send_telegram_message true (some (TgBody.valid false)) = Except.ok false ∧
    send_telegram_message true none = Except.ok false :=
  ⟨rfl, rfl, rfl, rfl⟩

/-- **C10.**  A narrative of at most 4000 characters delivered via the text
fallback yields exactly one message, carrying the narrative verbatim with no
`"[Part N]"` prefix, and no pause events. -/
theorem C10_short_narrative (narrative : Str)
    (h : narrative.length ≤ 4000) :
    textFallbackMessages narrative = [narrative] ∧
    textFallbackEvents narrative = [Event.textSend narrative] := by
  constructor
  · unfold textFallbackMessages
    rw [if_neg (by simp only [max_len]; omega)]
  · unfold textFallbackEvents
    rw [if_neg (by simp only [max_len]; omega)]

/-- **C10, witness.**  A two-character narrative is sent as one verbatim
message. -/
theorem C10_short_narrative_witness :
    textFallbackMessages (str "hi") = [str "hi"] :=
  (C10_short_narrative (str "hi") (by decide)).1

/-- **C4.**  `extract_text_from_url` returns the `entry-body` section's text
unconditionally when the section is present; otherwise it consults the first
present element among `main`, `article`, `body` and returns its text only when
longer than 200 characters; a failed fetch, an absent fallback element, a
fallback text of at most 200 characters, or a parse exception all yield the
`None` sentinel — never partial text. -/
theorem C4_extractor (p : Page) :
    (extract_text_from_url none = none) ∧
    (p.parseError = true → extract_text_from_url (some p) = none) ∧
    (∀ s, p.parseError = false → p.entry_body = some s →
      extract_text_from_url (some p) = some s) ∧
    (∀ s, p.parseError = false → p.entry_body = none → p.mainText = some s →
      extract_text_from_url (some p) =
        if s.length > 200 then some s else none) ∧
    (∀ s, p.parseError = false → p.entry_body = none → p.mainText = none →
      p.articleText = some s →
      extract_text_from_url (some p) =
        if s.length > 200 then some s else none) ∧
    (∀ s, p.parseError = false → p.entry_body = none → p.mainText = none →
      p.articleText = none → p.bodyText = some s →
      extract_text_from_url (some p) =
        if s.length > 200 then some s else none) ∧
    (p.parseError = false → p.entry_body = none → p.mainText = none →
      p.articleText = none → p.bodyText = none →
      extract_text_from_url (some p) = none) := by
  obtain ⟨eb, mt, art, bt, pe⟩ := p
  refine ⟨rfl, ?_, ?_, ?_, ?_, ?_, ?_⟩ <;> simp only <;> intros <;>
    subst_vars <;> rfl

/-- **C4, witness.**  A page whose `entry-body` section holds a two-character
text returns exactly that text, short as it is. -/
theorem C4_extractor_witness :
    extract_text_from_url (some ⟨some (str "hi"), none, none, none, false⟩) =
      some (str "hi") :=
  (C4_extractor ⟨some (str "hi"), none, none, none, false⟩).2.2.1
    (str "hi") rfl rfl

/-- **C3.**  A narrative longer than 4000 characters is split into
`ceil(len/4000)` sequential chunks: chunk `k` (1-based) is the message
`"[Part k]\n"` followed by the `k`-th 4000-character slice, every slice has at
most 4000 characters, the slices concatenate back to the narrative, and each
chunked message is followed by a one-second pause event. -/
theorem C3_chunked_delivery (narrative : Str)
    (h : narrative.length > 4000) :
    (textFallbackMessages narrative).length =
      (narrative.length + 3999) / 4000 ∧
    (∀ k, k < (narrative.length + 3999) / 4000 →
      (textFallbackMessages narrative).get? k =
        some (partPrefix (k + 1) ++ (narrative.drop (k * 4000)).take 4000)) ∧
    (∀ k, ((narrative.drop (k * 4000)).take 4000).length ≤ 4000) ∧
    ((List.range ((narrative.length + 3999) / 4000)).map
      (fun k => (narrative.drop (k * 4000)).take 4000)).flatten = narrative ∧
    textFallbackEvents narrative =
      ((textFallbackMessages narrative).map
        (fun msg => [Event.textSend msg, Event.slept 1])).flatten := by
  have hgt : narrative.length > max_len := h
  have hmsg : textFallbackMessages narrative =
      (pyRange0 narrative.length max_len).map (fun i =>
        partPrefix (i / max_len + 1) ++ (narrative.drop i).take max_len) := by
    unfold textFallbackMessages
    rw [if_pos hgt]
  refine ⟨?_, ?_, ?_, ?_, ?_⟩
  · rw [hmsg]
    simp [pyRange0, max_len]
  · intro k hk
    rw [hmsg]
    unfold pyRange0
    rw [List.map_map, List.get?_map,
      List.get?_range (show k < (narrative.length + max_len - 1) / max_len by
        simp only [max_len]; omega)]
    simp only [Option.map_some', Function.comp_apply]
    rw [Nat.mul_div_cancel k (show 0 < max_len by decide)]
    rfl
  · intro k
    rw [List.length_take]
    exact Nat.min_le_left _ _
  · exact flatten_take_chunks 4000 _ narrative
      (le_ceil_mul narrative.length 4000 (by decide))
  · unfold textFallbackEvents
    rw [if_pos hgt, hmsg, List.map_map]
    rfl

/-- **C3, witness.**  A 9000-character narrative yields exactly three
parts. -/
theorem C3_chunked_delivery_witness :
    (textFallbackMessages (List.replicate 9000 'a')).length = 3 := by
  have h : (List.replicate 9000 'a' : Str).length > 4000 := by
    rw [List.length_replicate]
    omega
  have h1 := (C3_chunked_delivery (List.replicate 9000 'a') h).1
  rw [List.length_replicate] at h1
  norm_num at h1
  exact h1

/-- **C2.**  In the synthesize-and-deliver stage, exactly one of the two
delivery outcomes occurs: either the audio send succeeds and no text-narrative
send is issued, or no audio send succeeds and the stage issues exactly the
text-fallback messages for the full narrative (chunked when needed), the text
path starting only after the audio attempt, never in parallel.  (Whether the
issued text sends are acknowledged is the messaging provider's side; the
orchestrator ignores their return values.) -/
theorem C2_exclusive_outcome (env : Env) (narrative : Str) :
    (audioSucceeded (synthesizeAndDeliver env narrative) ∧
      textSends (synthesizeAndDeliver env narrative) = []) ∨
    (¬ audioSucceeded (synthesizeAndDeliver env narrative) ∧
      textSends (synthesizeAndDeliver env narrative) =
        textFallbackMessages narrative ∧
      ∃ pre, synthesizeAndDeliver env narrative =
        pre ++ textFallbackEvents narrative ∧ textSends pre = []) := by
  cases htts : text_to_speech_elevenlabs true narrative
      (env.ttsTransport narrative) with
  | none =>
      rw [synthesizeAndDeliver_eq_none env narrative htts]
      right
      refine ⟨?_, textSends_textFallbackEvents narrative, [], by simp, rfl⟩
      rintro ⟨c, a, hmem⟩
      exact audioAttempt_not_mem_textFallbackEvents narrative c a true hmem
  | some audio =>
      cases hsend : send_telegram_audio true (env.audioOutcome
        (send_telegram_audio_posted_caption (audioCaptionArg narrative))
        audio) with
      | true =>
          rw [synthesizeAndDeliver_eq_success env narrative audio htts hsend]
          left
          exact ⟨⟨_, audio, List.mem_singleton.mpr rfl⟩, rfl⟩
      | false =>
          rw [synthesizeAndDeliver_eq_failure env narrative audio htts hsend]
          right
          refine ⟨?_, ?_, [Event.audioAttempt
            (send_telegram_audio_posted_caption (audioCaptionArg narrative))
            audio false], rfl, rfl⟩
          · rintro ⟨c, a, hmem⟩
            rcases List.mem_cons.mp hmem with heq | hmem'
            · exact absurd heq (by simp)
            · exact audioAttempt_not_mem_textFallbackEvents narrative c a true
                hmem'
          · simp only [textSends, List.filterMap_cons]
            exact textSends_textFallbackEvents narrative

/-- A world where speech synthesis fails: the TTS transport yields no
response. -/
def envNoAudio : Env where
  configOk := true
  now := 0
  entries := []
  pageOf := fun _ => none
  llmTransport := fun _ => none
  ttsTransport := fun _ => none
  audioOutcome := fun _ _ => .exception

/-- **C2, witness.**  With failing synthesis, the stage delivers exactly the
text-fallback messages of the narrative. -/
theorem C2_exclusive_outcome_witness :
    textSends (synthesizeAndDeliver envNoAudio (str "hello")) =
      textFallbackMessages (str "hello") := by
  rcases C2_exclusive_outcome envNoAudio (str "hello") with ⟨ha, -⟩ | ⟨-, h, -⟩
  · exact absurd ha (by decide)
  · exact h

/-- The environment of end-to-end scenario A: one feed entry two hours old,
successful extraction, a summarizer answering `"Summary X"`, successful speech
synthesis and a Telegram that acknowledges the audio upload. -/
def envScenarioA : Env where
  configOk := true
  now := 1000000
  entries := [⟨str "T", some (str "http://a"), some 992800, none⟩]
  pageOf := fun _ => some ⟨some (str "Body text"), none, none, none, false⟩
  llmTransport := fun _ => some (.valid (some [some (str "Summary X")]))
  ttsTransport := fun _ => some (200, str "AUDIO")
  audioOutcome := fun _ _ => .response 200 (.valid true)

/-- **C7, counterexample.**  In scenario A the claim says the single audio
send carries caption `"Summary X"`.  The code (news.py 353) prepends the
header `"Your 24hr News Summary:\n"` to the first-line summary, so the posted
caption differs from `"Summary X"`. -/
theorem C7_counterexample :
    main envScenarioA =
      [Event.audioAttempt (str "Your 24hr News Summary:\nSummary X")
        (str "AUDIO") true] ∧
    str "Your 24hr News Summary:\nSummary X" ≠ str "Summary X" := by
  exact ⟨by decide, by decide⟩

/-- **C7, amended.**  When synthesis succeeds and the audio send is
acknowledged, exactly one audio send occurs; its caption is the fixed header
`"Your 24hr News Summary:"` plus a newline, followed by the narrative's first
line — truncated to its first 200 characters with `"..."` appended exactly
when the first line exceeds 200 characters — and the caption field actually
posted is that string hard-truncated to 1024 characters. -/
theorem C7_caption (env : Env) (narrative audio : Str)
    (htts : text_to_speech_elevenlabs true narrative
      (env.ttsTransport narrative) = some audio)
    (hsend : send_telegram_audio true (env.audioOutcome
      (send_telegram_audio_posted_caption (audioCaptionArg narrative)) audio)
      = true) :
    synthesizeAndDeliver env narrative =
      [Event.audioAttempt
        ((str "Your 24hr News Summary:" ++ ['\n'] ++
          (if (narrative.takeWhile (fun c => c ≠ '\n')).length > 200 then
            (narrative.takeWhile (fun c => c ≠ '\n')).take 200 ++ str "..."
          else narrative.takeWhile (fun c => c ≠ '\n'))).take 1024)
        audio true] ∧
    (send_telegram_audio_posted_caption (audioCaptionArg narrative)).length
      ≤ 1024 := by
  constructor
  · rw [synthesizeAndDeliver_eq_success env narrative audio htts hsend]
    rfl
  · unfold send_telegram_audio_posted_caption
    rw [List.length_take]
    exact Nat.min_le_left _ _

/-- **C7, witness.**  The amended caption shape at scenario A's narrative. -/
theorem C7_caption_witness :
    synthesizeAndDeliver envScenarioA (str "Summary X") =
      [Event.audioAttempt
        ((str "Your 24hr News Summary:" ++ ['\n'] ++
          (if ((str "Summary X").takeWhile (fun c => c ≠ '\n')).length > 200
          then ((str "Summary X").takeWhile (fun c => c ≠ '\n')).take 200 ++
            str "..."
          else (str "Summary X").takeWhile (fun c => c ≠ '\n'))).take 1024)
        (str "AUDIO") true] :=
  (C7_caption envScenarioA (str "Summary X") (str "AUDIO") (by decide)
    (by decide)).1

/-- A stub world for exercising `mainRun`: no credentials, empty feed, every
service failing. -/
def svcStub : Services where
  configOk := false
  now := 0
  feed := fun _ => []
  page := fun _ _ => none
  llm := fun _ _ => none
  tts := fun _ _ => none
  audioOutcome := fun _ _ => .exception

/-- **C9.**  The run is a pure function of the external world: when the feed
document, the article pages and the summarizer/TTS responses do not depend on
the client-identity header (the claim's premise of an unchanged feed and
deterministic providers), any two runs — in particular runs drawing different
identity strings from the fixed pool — deliver identical event sequences.  No
state flows between runs: `mainRun` reads nothing but its arguments. -/
theorem C9_run_determinism (svc : Services) (c1 c2 : Fin 4)
    (hfeed : ∀ ua ua', svc.feed ua = svc.feed ua')
    (hpage : ∀ ua ua', svc.page ua = svc.page ua')
    (hllm : ∀ ua ua', svc.llm ua = svc.llm ua')
    (htts : ∀ ua ua', svc.tts ua = svc.tts ua') :
    mainRun c1 svc = mainRun c2 svc := by
  unfold mainRun
  rw [hfeed (get_random_user_agent c1) (get_random_user_agent c2),
    hpage (get_random_user_agent c1) (get_random_user_agent c2),
    hllm (get_random_user_agent c1) (get_random_user_agent c2),
    htts (get_random_user_agent c1) (get_random_user_agent c2)]

/-- **C9, witness.**  Two runs over the stub world with different identity
draws coincide. -/
theorem C9_run_determinism_witness :
    mainRun 0 svcStub = mainRun 1 svcStub :=
  C9_run_determinism svcStub 0 1 (fun _ _ => rfl) (fun _ _ => rfl)
    (fun _ _ => rfl) (fun _ _ => rfl)

end News
